import Mathlib

/-
Verification of the beam-analysis kernel of `src/components/beam-load-calculator.tsx`
(functions `calculateResults`, lines 330-475, and `calculateDiagrams`, lines 477-575).

JavaScript numbers are modelled by `JsNum`: a finite value carries an exact rational
(the model abstracts IEEE-754 rounding to exact rational arithmetic), and the special
values Infinity, -Infinity and NaN are explicit constructors with the IEEE semantics
JavaScript gives them (division by zero, 0/0, Infinity - Infinity, 0 * Infinity, ...).
Divisions whose divisor is a nonzero literal constant of the source (1000, 2, 6, 12,
64, 99, 1e6) are written as exact rational divisions inside `finite`, which agrees
with the JsNum division in those cases; divisions whose divisor depends on the input
(support span, section modulus, area, normal stress, height/2, diameter/2) are
written with the JsNum division `jdiv`, so that the NaN/Infinity behaviour of the
source is preserved.  All the embedded functions are total computable Lean
functions: the model can raise no exception, mirroring the guard-free source.
-/

namespace BeamCalc

/-- JavaScript number: exact finite rational, or one of the IEEE special values. -/
inductive JsNum where
  | finite : ℚ → JsNum
  | inf : JsNum
  | negInf : JsNum
  | nan : JsNum
deriving DecidableEq, Repr

namespace JsNum

/-- JavaScript addition. -/
def jadd : JsNum → JsNum → JsNum
  | nan, _ => nan
  | _, nan => nan
  | inf, negInf => nan
  | negInf, inf => nan
  | inf, _ => inf
  | _, inf => inf
  | negInf, _ => negInf
  | _, negInf => negInf
  | finite a, finite b => finite (a + b)

/-- JavaScript negation. -/
def jneg : JsNum → JsNum
  | nan => nan
  | inf => negInf
  | negInf => inf
  | finite a => finite (-a)

/-- JavaScript subtraction, `a - b = a + (-b)`. -/
def jsub (a b : JsNum) : JsNum := jadd a (jneg b)

/-- JavaScript multiplication (0 * Infinity = NaN). -/
def jmul : JsNum → JsNum → JsNum
  | nan, _ => nan
  | _, nan => nan
  | inf, inf => inf
  | inf, negInf => negInf
  | negInf, inf => negInf
  | negInf, negInf => inf
  | inf, finite b => if 0 < b then inf else if b < 0 then negInf else nan
  | finite a, inf => if 0 < a then inf else if a < 0 then negInf else nan
  | negInf, finite b => if 0 < b then negInf else if b < 0 then inf else nan
  | finite a, negInf => if 0 < a then negInf else if a < 0 then inf else nan
  | finite a, finite b => finite (a * b)

/-- JavaScript division (x/0 = ±Infinity, 0/0 = NaN, x/Infinity = 0). -/
def jdiv : JsNum → JsNum → JsNum
  | nan, _ => nan
  | _, nan => nan
  | inf, inf => nan
  | inf, negInf => nan
  | negInf, inf => nan
  | negInf, negInf => nan
  | inf, finite b => if b < 0 then negInf else inf
  | negInf, finite b => if b < 0 then inf else negInf
  | finite _, inf => finite 0
  | finite _, negInf => finite 0
  | finite a, finite b =>
      if b = 0 then (if 0 < a then inf else if a < 0 then negInf else nan)
      else finite (a / b)

/-- JavaScript `Math.max` (NaN-absorbing). -/
def jmax : JsNum → JsNum → JsNum
  | nan, _ => nan
  | _, nan => nan
  | inf, _ => inf
  | _, inf => inf
  | negInf, b => b
  | a, negInf => a
  | finite a, finite b => finite (max a b)

/-- JavaScript `Math.abs`. -/
def jabs : JsNum → JsNum
  | nan => nan
  | inf => inf
  | negInf => inf
  | finite a => finite |a|

end JsNum

/-- Rounding of a rational to `f` decimal places, as JavaScript
`Number(x.toFixed(f))` does on finite values (nearest, ties towards plus
infinity per the ECMA `toFixed` tie rule). -/
def rnd (f : ℕ) (q : ℚ) : ℚ := (Int.floor (q * 10 ^ f + 1 / 2) : ℚ) / 10 ^ f

/-- JavaScript `Number(x.toFixed(f))` on a JsNum: special values pass through
(`Number("Infinity") = Infinity`, `Number("NaN") = NaN`). -/
def jround (f : ℕ) : JsNum → JsNum
  | JsNum.nan => JsNum.nan
  | JsNum.inf => JsNum.inf
  | JsNum.negInf => JsNum.negInf
  | JsNum.finite q => JsNum.finite (rnd f q)

/-- The exact rational value of the IEEE-754 double `Math.PI`
(3.141592653589793..., i.e. 7074237752028440 * 2 ^ (-51)). -/
def jsMathPI : ℚ := 884279719003555 / 281474976710656

open JsNum

/-! ## Data model (source lines 16-52, 279-304) -/

/-- `beamType` state: the two values offered by the UI. -/
inductive BeamType where
  | simpleBeam : BeamType
  | cantileverBeam : BeamType
deriving DecidableEq, Repr

/-- `beamCrossSection` state. -/
inductive CrossSection where
  | rectangular : CrossSection
  | iBeam : CrossSection
  | cChannel : CrossSection
  | circular : CrossSection
deriving DecidableEq, Repr

/-- `Load.type` field. -/
inductive LoadType where
  | pointLoad : LoadType
  | uniformLoad : LoadType
deriving DecidableEq, Repr

/-- The `Load` interface (source lines 47-52).  `endPosition` is optional in the
source and only read (via `load.endPosition!`) for uniform loads; it is modelled
as a plain rational that point loads never consult. -/
structure Load where
  type : LoadType
  magnitude : ℚ
  startPosition : ℚ
  endPosition : ℚ
deriving DecidableEq, Repr

/-- The material preset keys of `standardMaterials` (source lines 16-45). -/
inductive MaterialName where
  | astmA36 : MaterialName
  | astmA992 : MaterialName
  | astmA572 : MaterialName
  | custom : MaterialName
deriving DecidableEq, Repr

/-- The `CustomMaterial` interface (source lines 61-65). -/
structure CustomMaterial where
  yieldStrength : ℚ
  elasticModulus : ℚ
  density : ℚ
deriving DecidableEq, Repr

/-- Whole input state consumed by `calculateResults` / `calculateDiagrams`
(the useState variables of the component, source lines 280-304). -/
structure Config where
  beamType : BeamType
  beamCrossSection : CrossSection
  beamLength : ℚ
  leftSupport : ℚ
  rightSupport : ℚ
  loads : List Load
  material : MaterialName
  customMaterial : CustomMaterial
  width : ℚ
  height : ℚ
  flangeWidth : ℚ
  flangeThickness : ℚ
  webThickness : ℚ
  diameter : ℚ
  beamDensity : ℚ
deriving DecidableEq, Repr

/-- `yieldStrength` of `materialProps` (source line 427 together with the
`standardMaterials` table, lines 16-45): the preset value, or the custom
material's value when `material === 'Custom'`. -/
def materialYieldStrength (cfg : Config) : ℚ :=
  match cfg.material with
  | MaterialName.astmA36 => 250
  | MaterialName.astmA992 => 345
  | MaterialName.astmA572 => 345
  | MaterialName.custom => cfg.customMaterial.yieldStrength

/-! ## Reaction solver (source lines 363-391), working in meters -/

/-- One `loads.forEach` step of the simple-beam reaction accumulation
(source lines 368-381). -/
def simpleReactionsStep (lM rM : ℚ) (acc : JsNum × JsNum) (load : Load) :
    JsNum × JsNum :=
  let sM := load.startPosition / 1000
  match load.type with
  | LoadType.pointLoad =>
      (jadd acc.1 (jdiv (finite (load.magnitude * (rM - sM))) (finite (rM - lM))),
       jadd acc.2 (jdiv (finite (load.magnitude * (sM - lM))) (finite (rM - lM))))
  | LoadType.uniformLoad =>
      let eM := load.endPosition / 1000
      let loadLengthM := eM - sM
      let totalLoad := load.magnitude * loadLengthM
      let loadCentroidM := (sM + eM) / 2
      (jadd acc.1 (jdiv (finite (totalLoad * (rM - loadCentroidM))) (finite (rM - lM))),
       jadd acc.2 (jdiv (finite (totalLoad * (loadCentroidM - lM))) (finite (rM - lM))))

/-- Simple-beam reactions `(R1, R2)` (source lines 364-381). -/
def simpleReactions (lM rM : ℚ) (loads : List Load) : JsNum × JsNum :=
  loads.foldl (simpleReactionsStep lM rM) (finite 0, finite 0)

/-- Cantilever reaction `R1` (source lines 382-391). -/
def cantileverR1 (loads : List Load) : JsNum :=
  loads.foldl
    (fun acc load =>
      match load.type with
      | LoadType.pointLoad => jadd acc (finite load.magnitude)
      | LoadType.uniformLoad =>
          jadd acc (finite (load.magnitude *
            ((load.endPosition - load.startPosition) / 1000))))
    (finite 0)

/-- Reactions `(R1, R2)` of `calculateResults` for either beam type; `R2`
keeps its initial value `0` for cantilevers (source lines 363-391). -/
def reactionsOf (cfg : Config) : JsNum × JsNum :=
  match cfg.beamType with
  | BeamType.simpleBeam =>
      simpleReactions (cfg.leftSupport / 1000) (cfg.rightSupport / 1000) cfg.loads
  | BeamType.cantileverBeam => (cantileverR1 cfg.loads, finite 0)

/-! ## Extremum solver (source lines 393-424) -/

/-- One `loads.forEach` step of the simple-beam `maxBendingMoment`
accumulation (source lines 398-412). -/
def simpleMaxMomentStep (lM : ℚ) (R1 : JsNum) (acc : JsNum) (load : Load) : JsNum :=
  let sM := load.startPosition / 1000
  match load.type with
  | LoadType.pointLoad => jmax acc (jmul R1 (finite (sM - lM)))
  | LoadType.uniformLoad =>
      let eM := load.endPosition / 1000
      let loadLengthM := eM - sM
      let momentAtStart :=
        jsub (jmul R1 (finite (sM - lM)))
          (finite (load.magnitude * loadLengthM * (sM - lM + loadLengthM / 2) / 2))
      let momentAtEnd :=
        jsub (jmul R1 (finite (eM - lM)))
          (finite (load.magnitude * loadLengthM * (eM - lM - loadLengthM / 2) / 2))
      jmax (jmax acc momentAtStart) momentAtEnd

/-- Simple-beam `maxBendingMoment` before rounding (source lines 395-412). -/
def simpleMaxMoment (lM : ℚ) (R1 : JsNum) (loads : List Load) : JsNum :=
  loads.foldl (simpleMaxMomentStep lM R1) (finite 0)

/-- One `loads.forEach` step of the cantilever `maxBendingMoment`
accumulation (source lines 414-424). -/
def cantileverMaxMomentStep (beamLengthM : ℚ) (acc : JsNum) (load : Load) : JsNum :=
  match load.type with
  | LoadType.pointLoad =>
      jmax acc (finite (load.magnitude * (beamLengthM - load.startPosition / 1000)))
  | LoadType.uniformLoad =>
      let loadLengthM := (load.endPosition - load.startPosition) / 1000
      jmax acc (finite (load.magnitude * loadLengthM *
        (beamLengthM - (load.startPosition / 1000 + load.endPosition / 1000) / 2)))

/-- Cantilever `maxBendingMoment` before rounding (source lines 413-424). -/
def cantileverMaxMoment (beamLengthM : ℚ) (loads : List Load) : JsNum :=
  loads.foldl (cantileverMaxMomentStep beamLengthM) (finite 0)

/-- `maxBendingMoment` of `calculateResults` before rounding
(source lines 395-424). -/
def maxBendingMomentRaw (cfg : Config) : JsNum :=
  match cfg.beamType with
  | BeamType.simpleBeam =>
      simpleMaxMoment (cfg.leftSupport / 1000) (reactionsOf cfg).1 cfg.loads
  | BeamType.cantileverBeam => cantileverMaxMoment (cfg.beamLength / 1000) cfg.loads

/-- `maxShearForce = Math.max(Math.abs(R1), Math.abs(R2))` before rounding
(source line 394). -/
def maxShearForceRaw (cfg : Config) : JsNum :=
  jmax (jabs (reactionsOf cfg).1) (jabs (reactionsOf cfg).2)

/-! ## Section properties (source lines 426-459), meters -/

/-- `(area, momentOfInertia, sectionModulus)` from the cross-section switch
(source lines 430-459); dimensions are converted from mm to m first. -/
def sectionProperties (cfg : Config) : JsNum × JsNum × JsNum :=
  let widthM := cfg.width / 1000
  let heightM := cfg.height / 1000
  let flangeWidthM := cfg.flangeWidth / 1000
  let flangeThicknessM := cfg.flangeThickness / 1000
  let webThicknessM := cfg.webThickness / 1000
  let diameterM := cfg.diameter / 1000
  match cfg.beamCrossSection with
  | CrossSection.rectangular =>
      let area := finite (widthM * heightM)
      let momentOfInertia := finite (widthM * heightM ^ 3 / 12)
      (area, momentOfInertia, jdiv momentOfInertia (finite (heightM / 2)))
  | CrossSection.iBeam =>
      let area := finite (2 * flangeWidthM * flangeThicknessM +
        (heightM - 2 * flangeThicknessM) * webThicknessM)
      let iFlange := flangeWidthM * flangeThicknessM ^ 3 / 6 +
        2 * flangeWidthM * flangeThicknessM * ((heightM - flangeThicknessM) / 2) ^ 2
      let iWeb := webThicknessM * (heightM - 2 * flangeThicknessM) ^ 3 / 12
      let momentOfInertia := finite (2 * iFlange + iWeb)
      (area, momentOfInertia, jdiv momentOfInertia (finite (heightM / 2)))
  | CrossSection.cChannel =>
      let area := finite (2 * flangeWidthM * flangeThicknessM +
        (heightM - 2 * flangeThicknessM) * webThicknessM)
      let iFlangeC := flangeWidthM * flangeThicknessM ^ 3 / 12 +
        flangeWidthM * flangeThicknessM * ((heightM - flangeThicknessM) / 2) ^ 2
      let iWebC := webThicknessM * (heightM - 2 * flangeThicknessM) ^ 3 / 12
      let momentOfInertia := finite (2 * iFlangeC + iWebC)
      (area, momentOfInertia, jdiv momentOfInertia (finite (heightM / 2)))
  | CrossSection.circular =>
      let area := finite (jsMathPI * (diameterM / 2) ^ 2)
      let momentOfInertia := finite (jsMathPI * diameterM ^ 4 / 64)
      (area, momentOfInertia, jdiv momentOfInertia (finite (diameterM / 2)))

/-- `maxNormalStress = (maxBendingMoment / sectionModulus) / 1e6` before
rounding (source line 462). -/
def maxNormalStressRaw (cfg : Config) : JsNum :=
  jdiv (jdiv (maxBendingMomentRaw cfg) (sectionProperties cfg).2.2) (finite 1000000)

/-- `maxShearStress = (1.5 * maxShearForce / area) / 1e6` before rounding
(source line 463). -/
def maxShearStressRaw (cfg : Config) : JsNum :=
  jdiv (jdiv (jmul (finite (3 / 2)) (maxShearForceRaw cfg)) (sectionProperties cfg).1)
    (finite 1000000)

/-- The `results` record set by `calculateResults` (source lines 465-474). -/
structure AnalysisResult where
  maxShearForce : JsNum
  maxBendingMoment : JsNum
  maxNormalStress : JsNum
  maxShearStress : JsNum
  safetyFactor : JsNum
  centerOfGravity : JsNum
  momentOfInertia : JsNum
  sectionModulus : JsNum
deriving DecidableEq, Repr

/-- The beam-analysis kernel `calculateResults` (source lines 330-475),
assembled from the blocks above, with the `toFixed` roundings of the
`setResults` call (source lines 465-474). -/
def calculateResults (cfg : Config) : AnalysisResult :=
  { maxShearForce := jround 2 (maxShearForceRaw cfg)
    maxBendingMoment := jround 2 (maxBendingMomentRaw cfg)
    maxNormalStress := jround 2 (maxNormalStressRaw cfg)
    maxShearStress := jround 2 (maxShearStressRaw cfg)
    safetyFactor := jround 2 (jdiv (finite (materialYieldStrength cfg))
      (maxNormalStressRaw cfg))
    centerOfGravity := jround 3 (finite (cfg.beamLength / 1000 / 2))
    momentOfInertia := jround 6 (sectionProperties cfg).2.1
    sectionModulus := jround 6 (sectionProperties cfg).2.2 }

/-- `beamWeightN = beamVolume * beamDensity * 9.81` (source lines 342-361),
rounded to two decimals as by `setBeamWeight`. -/
def beamWeightN (cfg : Config) : JsNum :=
  let beamLengthM := cfg.beamLength / 1000
  let beamVolume : ℚ :=
    match cfg.beamCrossSection with
    | CrossSection.rectangular => cfg.width / 1000 * (cfg.height / 1000) * beamLengthM
    | CrossSection.iBeam =>
        (2 * (cfg.flangeWidth / 1000) * (cfg.flangeThickness / 1000) +
          (cfg.height / 1000 - 2 * (cfg.flangeThickness / 1000)) *
            (cfg.webThickness / 1000)) * beamLengthM
    | CrossSection.cChannel =>
        (2 * (cfg.flangeWidth / 1000) * (cfg.flangeThickness / 1000) +
          (cfg.height / 1000 - 2 * (cfg.flangeThickness / 1000)) *
            (cfg.webThickness / 1000)) * beamLengthM
    | CrossSection.circular =>
        jsMathPI * (cfg.diameter / 1000 / 2) ^ 2 * beamLengthM
  jround 2 (finite (beamVolume * cfg.beamDensity * (981 / 100)))

/-! ## Curve sampler `calculateDiagrams` (source lines 477-575), millimeters -/

/-- Reactions recomputed by `calculateDiagrams` in millimeter units
(source lines 483-509). -/
def diagramReactions (cfg : Config) : JsNum × JsNum :=
  match cfg.beamType with
  | BeamType.simpleBeam =>
      cfg.loads.foldl
        (fun acc load =>
          match load.type with
          | LoadType.pointLoad =>
              (jadd acc.1 (jdiv
                  (finite (load.magnitude * (cfg.rightSupport - load.startPosition)))
                  (finite (cfg.rightSupport - cfg.leftSupport))),
               jadd acc.2 (jdiv
                  (finite (load.magnitude * (load.startPosition - cfg.leftSupport)))
                  (finite (cfg.rightSupport - cfg.leftSupport))))
          | LoadType.uniformLoad =>
              let loadLength := load.endPosition - load.startPosition
              let totalLoad := load.magnitude * loadLength
              let loadCentroid := (load.startPosition + load.endPosition) / 2
              (jadd acc.1 (jdiv (finite (totalLoad * (cfg.rightSupport - loadCentroid)))
                  (finite (cfg.rightSupport - cfg.leftSupport))),
               jadd acc.2 (jdiv (finite (totalLoad * (loadCentroid - cfg.leftSupport)))
                  (finite (cfg.rightSupport - cfg.leftSupport)))))
        (finite 0, finite 0)
  | BeamType.cantileverBeam =>
      (cfg.loads.foldl
        (fun acc load =>
          match load.type with
          | LoadType.pointLoad => jadd acc (finite load.magnitude)
          | LoadType.uniformLoad =>
              jadd acc (finite (load.magnitude *
                (load.endPosition - load.startPosition))))
        (finite 0), finite 0)

/-- Simple-beam shear at sample position `x` (source lines 517-528):
reaction steps turn on at the supports, then each load subtracts its
(partially overlapped, for uniform loads) magnitude once `x` passes it. -/
def simpleShearAt (l r : ℚ) (R1 R2 : JsNum) (loads : List Load) (x : ℚ) : JsNum :=
  let shear := finite 0
  let shear := if l ≤ x then jadd shear R1 else shear
  let shear := if r ≤ x then jsub shear R2 else shear
  loads.foldl
    (fun sh load =>
      match load.type with
      | LoadType.pointLoad =>
          if load.startPosition ≤ x then jsub sh (finite load.magnitude) else sh
      | LoadType.uniformLoad =>
          if load.startPosition ≤ x then
            jsub sh (finite (load.magnitude *
              min (x - load.startPosition) (load.endPosition - load.startPosition)))
          else sh)
    shear

/-- Simple-beam moment at sample position `x` (source lines 530-541). -/
def simpleMomentAt (l r : ℚ) (R1 R2 : JsNum) (loads : List Load) (x : ℚ) : JsNum :=
  let moment := jmul R1 (finite (x - l))
  let moment := if r < x then jsub moment (jmul R2 (finite (x - r))) else moment
  loads.foldl
    (fun m load =>
      match load.type with
      | LoadType.pointLoad =>
          if load.startPosition < x then
            jsub m (finite (load.magnitude * (x - load.startPosition)))
          else m
      | LoadType.uniformLoad =>
          if load.startPosition < x then
            let loadedLength :=
              min (x - load.startPosition) (load.endPosition - load.startPosition)
            let loadCentroid := load.startPosition + loadedLength / 2
            jsub m (finite (load.magnitude * loadedLength * (x - loadCentroid)))
          else m)
    moment

/-- Cantilever `(shear, moment)` at sample position `x` (source lines
542-566): each load OVERWRITES both values instead of accumulating them,
so the last load of the list determines the emitted sample. -/
def cantileverShearMomentAt (beamLength : ℚ) (loads : List Load) (x : ℚ) :
    JsNum × JsNum :=
  loads.foldl
    (fun _ load =>
      match load.type with
      | LoadType.pointLoad =>
          if x ≤ load.startPosition then
            (finite (-load.magnitude),
             finite (-load.magnitude * (beamLength - load.startPosition)))
          else (finite 0, finite 0)
      | LoadType.uniformLoad =>
          let loadLength := load.endPosition - load.startPosition
          if x ≤ load.startPosition then
            (finite (-load.magnitude * loadLength),
             finite (-load.magnitude * loadLength *
               (beamLength - (load.startPosition + load.endPosition) / 2)))
          else if load.startPosition < x ∧ x < load.endPosition then
            let remainingLength := load.endPosition - x
            (finite (-load.magnitude * remainingLength),
             finite (-load.magnitude * remainingLength * remainingLength / 2))
          else (finite 0, finite 0))
    (finite 0, finite 0)

/-- The curve sampler `calculateDiagrams` (source lines 477-575): 100 samples
at `x = i * dx`, `dx = beamLength / 99`, producing the `shearForce` and
`bendingMoment` point lists with their `toFixed(2)` roundings. -/
def calculateDiagrams (cfg : Config) : List (ℚ × JsNum) × List (ℚ × JsNum) :=
  let numPoints : ℕ := 100
  let dx := cfg.beamLength / (numPoints - 1 : ℕ)
  let pts := (List.range numPoints).map
    (fun (i : ℕ) =>
      let x := (i : ℚ) * dx
      let sm : JsNum × JsNum :=
        match cfg.beamType with
        | BeamType.simpleBeam =>
            (simpleShearAt cfg.leftSupport cfg.rightSupport
               (diagramReactions cfg).1 (diagramReactions cfg).2 cfg.loads x,
             simpleMomentAt cfg.leftSupport cfg.rightSupport
               (diagramReactions cfg).1 (diagramReactions cfg).2 cfg.loads x)
        | BeamType.cantileverBeam =>
            cantileverShearMomentAt cfg.beamLength cfg.loads x
      ((rnd 2 x, jround 2 sm.1), (rnd 2 x, jround 2 sm.2)))
  (pts.map Prod.fst, pts.map Prod.snd)

/-! ## Arithmetic lemmas for the JsNum model -/

@[simp]
theorem jadd_finite (a b : ℚ) : jadd (finite a) (finite b) = finite (a + b) := rfl

@[simp]
theorem jneg_finite (a : ℚ) : jneg (finite a) = finite (-a) := rfl

@[simp]
theorem jsub_finite (a b : ℚ) : jsub (finite a) (finite b) = finite (a - b) := by
  simp [jsub, sub_eq_add_neg]

@[simp]
theorem jmul_finite (a b : ℚ) : jmul (finite a) (finite b) = finite (a * b) := rfl

@[simp]
theorem jmax_finite (a b : ℚ) : jmax (finite a) (finite b) = finite (max a b) := rfl

@[simp]
theorem jabs_finite (a : ℚ) : jabs (finite a) = finite |a| := rfl

@[simp]
theorem jround_finite (f : ℕ) (a : ℚ) : jround f (finite a) = finite (rnd f a) := rfl

@[simp]
theorem jdiv_finite (a : ℚ) {b : ℚ} (h : b ≠ 0) :
    jdiv (finite a) (finite b) = finite (a / b) := by
  simp [jdiv, h]

theorem jdiv_finite_zero_pos {a : ℚ} (h : 0 < a) :
    jdiv (finite a) (finite 0) = inf := by
  simp [jdiv, h]

theorem jdiv_finite_zero_neg {a : ℚ} (h : a < 0) :
    jdiv (finite a) (finite 0) = negInf := by
  simp [jdiv, h, asymm h]

theorem jdiv_zero_zero : jdiv (finite 0) (finite 0) = nan := by
  simp [jdiv]

@[simp]
theorem jdiv_nan_right (x : JsNum) : jdiv x nan = nan := by cases x <;> rfl

@[simp]
theorem jdiv_nan_left (x : JsNum) : jdiv nan x = nan := by cases x <;> rfl

@[simp]
theorem jadd_zero_left (x : JsNum) : jadd (finite 0) x = x := by
  cases x <;> simp [jadd]

@[simp]
theorem jabs_inf : jabs inf = inf := rfl

@[simp]
theorem jabs_negInf : jabs negInf = inf := rfl

@[simp]
theorem jmax_inf_left (x : JsNum) (h : x ≠ nan) : jmax inf x = inf := by
  cases x <;> simp_all [jmax]

theorem jmax_comm (a b : JsNum) : jmax a b = jmax b a := by
  cases a <;> cases b <;> simp [jmax, max_comm]

theorem jmax_assoc (a b c : JsNum) : jmax (jmax a b) c = jmax a (jmax b c) := by
  cases a <;> cases b <;> cases c <;> simp [jmax, max_assoc]

instance : Std.Commutative jmax := ⟨jmax_comm⟩

instance : Std.Associative jmax := ⟨jmax_assoc⟩

@[simp]
theorem jround_nan (f : ℕ) : jround f nan = nan := rfl

@[simp]
theorem jround_inf (f : ℕ) : jround f inf = inf := rfl

@[simp]
theorem rnd_zero (f : ℕ) : rnd f 0 = 0 := by
  norm_num [rnd]

theorem rnd_nonneg (f : ℕ) {q : ℚ} (h : 0 ≤ q) : 0 ≤ rnd f q := by
  unfold rnd
  have h10 : (0 : ℚ) < 10 ^ f := by positivity
  apply div_nonneg _ (le_of_lt h10)
  have : (0 : ℤ) ≤ Int.floor (q * 10 ^ f + 1 / 2) := by
    apply Int.le_floor.mpr
    push_cast
    nlinarith
  exact_mod_cast this

theorem rnd_int (f : ℕ) (n : ℤ) : rnd f (n : ℚ) = n := by
  unfold rnd
  have h10 : (0 : ℚ) < 10 ^ f := by positivity
  rw [div_eq_iff (ne_of_gt h10)]
  have : Int.floor ((n : ℚ) * 10 ^ f + 1 / 2) = n * 10 ^ f := by
    apply Int.floor_eq_iff.mpr
    constructor
    · push_cast; nlinarith
    · push_cast; nlinarith
  rw [this]
  push_cast
  ring

/-! ## Spec-side definitions

The following definitions are written from the words of the specification
(spec.md sections 4.1 and 4.2), NOT from the source, so that the source-derived
definitions above can be compared against them. -/

/-- Spec-claimed moment contribution at section `x` (meters) of the part of a
load lying left of `x`: a point load P at p contributes `P*(x-p)` once `p <= x`;
a uniform load contributes its overlapped part times the arm to its centroid.
This is the standard-statics meaning of the spec formula
`M(x) = R1*(x-left) - Sigma(load contributions up to x)`. -/
def claimedContribAt (x : ℚ) (load : Load) : ℚ :=
  match load.type with
  | LoadType.pointLoad =>
      if load.startPosition / 1000 ≤ x then
        load.magnitude * (x - load.startPosition / 1000)
      else 0
  | LoadType.uniformLoad =>
      let sM := load.startPosition / 1000
      let eM := load.endPosition / 1000
      if sM ≤ x then
        let len := min (eM - sM) (x - sM)
        load.magnitude * len * (x - (sM + len / 2))
      else 0

/-- Spec-claimed bending moment at section `x`:
`M(x) = R1*(x-left) - Sigma(load contributions up to x)`. -/
def claimedMomentAt (lM : ℚ) (R1 : JsNum) (loads : List Load) (x : ℚ) : JsNum :=
  jsub (jmul R1 (finite (x - lM))) (finite ((loads.map (claimedContribAt x)).sum))

/-- Spec-claimed evaluation points of a load: its application point for a point
load, both ends of the loaded span for a uniform load (meters). -/
def claimedEvalPoints (load : Load) : List ℚ :=
  match load.type with
  | LoadType.pointLoad => [load.startPosition / 1000]
  | LoadType.uniformLoad => [load.startPosition / 1000, load.endPosition / 1000]

/-- Spec-claimed simple-beam `maxBendingMoment` (claim C1): maximum over loads
of the claimed bending moment at the loads' evaluation points. -/
def claimedSimpleMaxMoment (lM : ℚ) (R1 : JsNum) (loads : List Load) : JsNum :=
  ((loads.flatMap claimedEvalPoints).map (claimedMomentAt lM R1 loads)).foldl
    jmax (finite 0)

/-- Spec-claimed simple-beam `maxBendingMoment` of a whole configuration,
using the solver's own `R1`. -/
def claimedMaxMomentOf (cfg : Config) : JsNum :=
  claimedSimpleMaxMoment (cfg.leftSupport / 1000) (reactionsOf cfg).1 cfg.loads

/-- Candidate edge moments the CODE evaluates for one load (the amended
description of claim C1): a point load at `x` yields `R1*(x-left)` with no
load term subtracted; a uniform load yields, at each end `x` of its span,
`R1*(x-left) - w*len*(x-left +- len/2)/2`; other loads never contribute. -/
def loadEdgeMoments (lM : ℚ) (R1 : JsNum) (load : Load) : List JsNum :=
  let sM := load.startPosition / 1000
  match load.type with
  | LoadType.pointLoad => [jmul R1 (finite (sM - lM))]
  | LoadType.uniformLoad =>
      let eM := load.endPosition / 1000
      let len := eM - sM
      [jsub (jmul R1 (finite (sM - lM)))
         (finite (load.magnitude * len * (sM - lM + len / 2) / 2)),
       jsub (jmul R1 (finite (eM - lM)))
         (finite (load.magnitude * len * (eM - lM - len / 2) / 2))]

/-- Amended claim C1 formula: the maximum of 0 and all per-load edge moments. -/
def amendedSimpleMaxMoment (lM : ℚ) (R1 : JsNum) (loads : List Load) : JsNum :=
  (loads.flatMap (loadEdgeMoments lM R1)).foldr jmax (finite 0)

/-- Spec formula (spec.md section 4.2) for the I-beam moment of inertia, with
dimensions in mm converted to m first:
`2*(bf*tf^3/6 + 2*bf*tf*((h-tf)/2)^2) + tw*(h-2tf)^3/12`. -/
def specIBeamMomentOfInertia (bf tf tw h : ℚ) : ℚ :=
  let bfM := bf / 1000
  let tfM := tf / 1000
  let twM := tw / 1000
  let hM := h / 1000
  2 * (bfM * tfM ^ 3 / 6 + 2 * bfM * tfM * ((hM - tfM) / 2) ^ 2) +
    twM * (hM - 2 * tfM) ^ 3 / 12

/-- Spec formula (spec.md section 4.2) for the C-channel moment of inertia
(divisor 12 and a single parallel-axis term in the flange part):
`2*(bf*tf^3/12 + bf*tf*((h-tf)/2)^2) + tw*(h-2tf)^3/12`. -/
def specCChannelMomentOfInertia (bf tf tw h : ℚ) : ℚ :=
  let bfM := bf / 1000
  let tfM := tf / 1000
  let twM := tw / 1000
  let hM := h / 1000
  2 * (bfM * tfM ^ 3 / 12 + bfM * tfM * ((hM - tfM) / 2) ^ 2) +
    twM * (hM - 2 * tfM) ^ 3 / 12

/-! ## Concrete configurations used as test vectors -/

/-- The component's initial state (source lines 280-304): simple rectangular
beam, 1000 mm long, supports at 0 and 1000 mm, one 1000 N point load at
midspan, ASTM A36 steel, 100x200 mm section. -/
def cfg0 : Config :=
  { beamType := BeamType.simpleBeam
    beamCrossSection := CrossSection.rectangular
    beamLength := 1000
    leftSupport := 0
    rightSupport := 1000
    loads := [⟨LoadType.pointLoad, 1000, 500, 0⟩]
    material := MaterialName.astmA36
    customMaterial := ⟨0, 0, 0⟩
    width := 100
    height := 200
    flangeWidth := 100
    flangeThickness := 10
    webThickness := 6
    diameter := 100
    beamDensity := 7850 }

/-- Test vector for claim C1: one uniform load of 1000 N/m over [200, 800] mm. -/
def cexC1cfg : Config :=
  { cfg0 with loads := [⟨LoadType.uniformLoad, 1000, 200, 800⟩] }

/-- Test vector for claim C2: cantilever with a 1000 N point load at
`startPosition = beamLength = 1000` mm. -/
def cexC2cfg : Config :=
  { cfg0 with beamType := BeamType.cantileverBeam
              loads := [⟨LoadType.pointLoad, 1000, 1000, 0⟩] }

/-- Cantilever with a 1000 N point load at position 0 (maximal moment arm). -/
def cfgC2w : Config :=
  { cfg0 with beamType := BeamType.cantileverBeam
              loads := [⟨LoadType.pointLoad, 1000, 0, 0⟩] }

/-- Test vector for claim C7: Custom material (yield strength 0) and a point
load of 400000/3 N at midspan, which makes the computed normal stress exactly
50 MPa. -/
def cexC7cfg : Config :=
  { cfg0 with material := MaterialName.custom
              loads := [⟨LoadType.pointLoad, 400000 / 3, 500, 0⟩] }

/-- Like `cexC7cfg` but with ASTM A36 material (yield strength 250 MPa). -/
def cfgC7a : Config :=
  { cfg0 with loads := [⟨LoadType.pointLoad, 400000 / 3, 500, 0⟩] }

/-- A zero-magnitude load: the computed moment, hence the normal stress, is 0. -/
def cfgC7zero : Config :=
  { cfg0 with loads := [⟨LoadType.pointLoad, 0, 500, 0⟩] }

/-- Zero-magnitude load and Custom material: both stress and yield are 0. -/
def cfgC7zz : Config :=
  { cfg0 with material := MaterialName.custom
              loads := [⟨LoadType.pointLoad, 0, 500, 0⟩] }

/-- All-negative loading: a single point load of -1000 N at midspan. -/
def cfgC10 : Config :=
  { cfg0 with loads := [⟨LoadType.pointLoad, -1000, 500, 0⟩] }

/-- Degenerate geometry: both supports at 0 (`leftSupport == rightSupport`). -/
def cfgC8a : Config := { cfg0 with rightSupport := 0 }

/-- Degenerate cross-section: rectangular section of height 0. -/
def cfgC8b : Config := { cfg0 with height := 0 }

/-- Cantilever with two loads, for the last-load-wins sampling behaviour. -/
def cfgC6 : Config :=
  { cfg0 with beamType := BeamType.cantileverBeam
              loads := [⟨LoadType.pointLoad, 500, 300, 0⟩,
                        ⟨LoadType.uniformLoad, 10, 100, 900⟩] }

/-! # Theorems for the claims -/

/-- C9: for every input, the reported `centerOfGravity` is `beamLength / 2`
converted to meters and rounded to 3 decimals, independent of the loads,
supports, cross-section and material: the source (line 471) computes it as
`(beamLengthM / 2).toFixed(3)` from the beam length alone. -/
theorem spec_C9 (cfg : Config) :
    (calculateResults cfg).centerOfGravity =
      finite (rnd 3 (cfg.beamLength / 1000 / 2)) := rfl

/-- C3: for a simple beam carrying exactly one point load of magnitude `P` at
position `x`, with supports `leftSupport < rightSupport` and load and supports
inside the beam, the two reactions satisfy `R1 + R2 = P` exactly. -/
theorem spec_C3 (cfg : Config) (P x e : ℚ)
    (hbt : cfg.beamType = BeamType.simpleBeam)
    (hloads : cfg.loads = [⟨LoadType.pointLoad, P, x, e⟩])
    (hlr : cfg.leftSupport < cfg.rightSupport)
    (hl0 : 0 ≤ cfg.leftSupport) (hrL : cfg.rightSupport ≤ cfg.beamLength)
    (hx0 : 0 ≤ x) (hxL : x ≤ cfg.beamLength) :
    jadd (reactionsOf cfg).1 (reactionsOf cfg).2 = finite P := by
  have h1 : cfg.leftSupport / 1000 < cfg.rightSupport / 1000 := by linarith
  have hne : cfg.rightSupport / 1000 - cfg.leftSupport / 1000 ≠ 0 :=
    sub_ne_zero.mpr (ne_of_gt h1)
  simp only [reactionsOf, hbt, hloads, simpleReactions, List.foldl_cons,
    List.foldl_nil, simpleReactionsStep, jdiv_finite _ hne, jadd_finite,
    jadd_zero_left, JsNum.finite.injEq, zero_add]
  rw [div_add_div_same]
  have h2 : P * (cfg.rightSupport / 1000 - x / 1000) +
      P * (x / 1000 - cfg.leftSupport / 1000) =
      P * (cfg.rightSupport / 1000 - cfg.leftSupport / 1000) := by ring
  rw [h2, mul_div_assoc, div_self hne, mul_one]

/-- Witness for C3 at the component's default state: supports 0 and 1000 mm,
1000 N point load at 500 mm; the reactions add up to 1000 N. -/
theorem spec_C3_witness :
    jadd (reactionsOf cfg0).1 (reactionsOf cfg0).2 = finite 1000 :=
  spec_C3 cfg0 1000 500 0 rfl rfl (by norm_num [cfg0]) (by norm_num [cfg0])
    (by norm_num [cfg0]) (by norm_num) (by norm_num [cfg0])

/-- Counterexample to C2 as stated: a cantilever of length 1000 mm with a
single 1000 N point load at `startPosition = 1000` (the beam length) yields
`maxBendingMoment = 0`, not `P * length = 1000` N·m, because the source
(line 416) uses the moment arm `beamLengthM - startPosition/1000 = 0`. -/
theorem spec_C2_counterexample :
    (calculateResults cexC2cfg).maxBendingMoment = finite 0 ∧
      JsNum.finite 0 ≠ JsNum.finite 1000 := by
  constructor
  · simp only [calculateResults, maxBendingMomentRaw, cexC2cfg, cfg0,
      cantileverMaxMoment, List.foldl_cons, List.foldl_nil,
      cantileverMaxMomentStep, jmax_finite, jround_finite, JsNum.finite.injEq]
    norm_num
  · simp

/-- C2 amended: for a cantilever with exactly one point load of magnitude `P`
at `startPosition = s`, the solver computes `R1 = P`, and (whenever
`P * (length - s) >= 0`, in meters) `maxBendingMoment = P * (length - s)`;
the value `P * length` claimed for the free end is attained at `s = 0`,
while a load at `s = length` yields moment 0. -/
theorem spec_C2 (cfg : Config) (P s e : ℚ)
    (hbt : cfg.beamType = BeamType.cantileverBeam)
    (hloads : cfg.loads = [⟨LoadType.pointLoad, P, s, e⟩])
    (hm : 0 ≤ P * ((cfg.beamLength - s) / 1000)) :
    (reactionsOf cfg).1 = finite P ∧
      maxBendingMomentRaw cfg = finite (P * ((cfg.beamLength - s) / 1000)) := by
  have harm : P * (cfg.beamLength / 1000 - s / 1000) =
      P * ((cfg.beamLength - s) / 1000) := by ring
  constructor
  · simp [reactionsOf, hbt, hloads, cantileverR1]
  · simp only [maxBendingMomentRaw, hbt, hloads, cantileverMaxMoment,
      List.foldl_cons, List.foldl_nil, cantileverMaxMomentStep, jmax_finite,
      JsNum.finite.injEq, harm]
    exact max_eq_right hm

/-- Witness for the amended C2: 1000 N at position 0 on a 1000 mm cantilever
gives `R1 = 1000` N and `maxBendingMoment = 1000` N·m, i.e. `P * length`. -/
theorem spec_C2_witness :
    (reactionsOf cfgC2w).1 = finite 1000 ∧
      maxBendingMomentRaw cfgC2w = finite 1000 := by
  have h := spec_C2 cfgC2w 1000 0 0 rfl rfl (by norm_num [cfgC2w, cfg0])
  refine ⟨h.1, ?_⟩
  rw [h.2]
  norm_num [cfgC2w, cfg0]

/-- C4: the section-property calculator uses the asymmetric flange-inertia
formulas of the spec: for an I-beam `I_flange = bf*tf^3/6 + 2*bf*tf*((h-tf)/2)^2`,
for a C-channel `I_flange = bf*tf^3/12 + bf*tf*((h-tf)/2)^2`; in both cases
`I = 2*I_flange + tw*(h-2tf)^3/12` and `Z = I/(h/2)`, with mm converted to m
first. -/
theorem spec_C4 (cfg : Config) :
    (cfg.beamCrossSection = CrossSection.iBeam →
      (sectionProperties cfg).2.1 = finite (specIBeamMomentOfInertia
          cfg.flangeWidth cfg.flangeThickness cfg.webThickness cfg.height) ∧
      (sectionProperties cfg).2.2 = jdiv
        (finite (specIBeamMomentOfInertia
          cfg.flangeWidth cfg.flangeThickness cfg.webThickness cfg.height))
        (finite (cfg.height / 1000 / 2))) ∧
    (cfg.beamCrossSection = CrossSection.cChannel →
      (sectionProperties cfg).2.1 = finite (specCChannelMomentOfInertia
          cfg.flangeWidth cfg.flangeThickness cfg.webThickness cfg.height) ∧
      (sectionProperties cfg).2.2 = jdiv
        (finite (specCChannelMomentOfInertia
          cfg.flangeWidth cfg.flangeThickness cfg.webThickness cfg.height))
        (finite (cfg.height / 1000 / 2))) := by
  constructor <;> intro h <;>
    simp only [sectionProperties, h, specIBeamMomentOfInertia,
      specCChannelMomentOfInertia] <;>
    exact ⟨trivial, trivial⟩

/-- Witness for C4: at a 100x10x6x200-mm I-beam and C-channel the computed
moments of inertia equal the spec formulas evaluated at those dimensions. -/
theorem spec_C4_witness :
    (sectionProperties { cfg0 with beamCrossSection := CrossSection.iBeam }).2.1 =
      finite (specIBeamMomentOfInertia 100 10 6 200) ∧
    (sectionProperties { cfg0 with beamCrossSection := CrossSection.cChannel }).2.1 =
      finite (specCChannelMomentOfInertia 100 10 6 200) :=
  ⟨((spec_C4 { cfg0 with beamCrossSection := CrossSection.iBeam }).1 rfl).1,
   ((spec_C4 { cfg0 with beamCrossSection := CrossSection.cChannel }).2 rfl).1⟩

/-- Counterexample to C7 as stated: with the Custom material (yield strength 0)
and a load making the computed normal stress exactly 50 MPa (nonzero), the
safety factor is the finite number 0, not Infinity or NaN, because the source
(line 470) computes `0 / 50 = 0`. -/
theorem spec_C7_counterexample :
    (calculateResults cexC7cfg).safetyFactor = finite 0 ∧
      JsNum.finite 0 ≠ inf ∧ JsNum.finite 0 ≠ negInf ∧ JsNum.finite 0 ≠ nan := by
  refine ⟨?_, by simp, by simp, by simp⟩
  have hs : maxNormalStressRaw cexC7cfg = finite 50 := by
    norm_num [maxNormalStressRaw, maxBendingMomentRaw, reactionsOf,
      simpleReactions, simpleReactionsStep, simpleMaxMoment, simpleMaxMomentStep,
      sectionProperties, cexC7cfg, cfg0, jdiv, max_def]
  have hy : materialYieldStrength cexC7cfg = 0 := rfl
  simp only [calculateResults, hs, hy]
  rw [jdiv_finite _ (by norm_num : (50 : ℚ) ≠ 0)]
  norm_num [rnd]

/-- C7 amended: `safetyFactor = yieldStrength / normalStress`, rounded to two
decimals; for ASTM A36 (yield 250 MPa) and a computed normal stress of exactly
50 MPa it is 5.0; a zero normal stress gives Infinity when the yield strength
is positive and NaN when the yield strength is also zero; a zero yield
strength with NONZERO normal stress gives the finite value 0 (not Infinity or
NaN). -/
theorem spec_C7 :
    (∀ cfg : Config, cfg.material = MaterialName.astmA36 →
        maxNormalStressRaw cfg = finite 50 →
        (calculateResults cfg).safetyFactor = finite 5) ∧
    (∀ cfg : Config, maxNormalStressRaw cfg = finite 0 →
        0 < materialYieldStrength cfg →
        (calculateResults cfg).safetyFactor = inf) ∧
    (∀ cfg : Config, maxNormalStressRaw cfg = finite 0 →
        materialYieldStrength cfg = 0 →
        (calculateResults cfg).safetyFactor = nan) ∧
    (∀ (cfg : Config) (q : ℚ), materialYieldStrength cfg = 0 →
        maxNormalStressRaw cfg = finite q → q ≠ 0 →
        (calculateResults cfg).safetyFactor = finite 0) := by
  refine ⟨fun cfg hA hs => ?_, fun cfg hs hy => ?_, fun cfg hs hy => ?_,
    fun cfg q hy hs hq => ?_⟩
  · simp only [calculateResults, hs, materialYieldStrength, hA]
    rw [jdiv_finite _ (by norm_num : (50 : ℚ) ≠ 0)]
    norm_num [rnd]
  · simp only [calculateResults, hs]
    rw [jdiv_finite_zero_pos hy]
    rfl
  · simp only [calculateResults, hs, hy]
    rw [jdiv_zero_zero]
    rfl
  · simp only [calculateResults, hs, hy]
    rw [jdiv_finite _ hq]
    norm_num [rnd]

/-- Witness for the amended C7 at concrete inputs: A36 with stress exactly
50 MPa gives safety factor 5; a zero-magnitude load (stress 0) with A36 gives
Infinity; the same with the Custom material (yield 0) gives NaN. -/
theorem spec_C7_witness :
    (calculateResults cfgC7a).safetyFactor = finite 5 ∧
    (calculateResults cfgC7zero).safetyFactor = inf ∧
    (calculateResults cfgC7zz).safetyFactor = nan := by
  have hsa : maxNormalStressRaw cfgC7a = finite 50 := by
    norm_num [maxNormalStressRaw, maxBendingMomentRaw, reactionsOf,
      simpleReactions, simpleReactionsStep, simpleMaxMoment, simpleMaxMomentStep,
      sectionProperties, cfgC7a, cfg0, jdiv, max_def]
  have hsz : maxNormalStressRaw cfgC7zero = finite 0 := by
    norm_num [maxNormalStressRaw, maxBendingMomentRaw, reactionsOf,
      simpleReactions, simpleReactionsStep, simpleMaxMoment, simpleMaxMomentStep,
      sectionProperties, cfgC7zero, cfg0, jdiv, max_def]
  have hszz : maxNormalStressRaw cfgC7zz = finite 0 := by
    norm_num [maxNormalStressRaw, maxBendingMomentRaw, reactionsOf,
      simpleReactions, simpleReactionsStep, simpleMaxMoment, simpleMaxMomentStep,
      sectionProperties, cfgC7zz, cfg0, jdiv, max_def]
  exact ⟨spec_C7.1 cfgC7a rfl hsa,
    spec_C7.2.1 cfgC7zero hsz (by norm_num [materialYieldStrength, cfgC7zero, cfg0]),
    spec_C7.2.2.1 cfgC7zz hszz rfl⟩

/-- The code's per-load fold for the simple-beam moment maximum equals a plain
`jmax`-fold over the flattened list of per-load edge-moment candidates. -/
theorem foldl_step_eq_foldl_jmax (lM : ℚ) (R1 : JsNum) (loads : List Load) :
    ∀ acc : JsNum, loads.foldl (simpleMaxMomentStep lM R1) acc =
      (loads.flatMap (loadEdgeMoments lM R1)).foldl jmax acc := by
  induction loads with
  | nil => intro acc; rfl
  | cons l ls ih =>
      intro acc
      rw [List.flatMap_cons, List.foldl_append, List.foldl_cons, ih]
      congr 1
      cases hlt : l.type <;>
        simp [simpleMaxMomentStep, loadEdgeMoments, hlt]

/-- The code's simple-beam moment maximum is the maximum of 0 and the per-load
edge moments. -/
theorem simpleMaxMoment_eq_amended (lM : ℚ) (R1 : JsNum) (loads : List Load) :
    simpleMaxMoment lM R1 loads = amendedSimpleMaxMoment lM R1 loads := by
  unfold simpleMaxMoment amendedSimpleMaxMoment
  rw [← List.foldl_eq_foldr, foldl_step_eq_foldl_jmax]

/-- Counterexample to C1 as stated: for a simple beam on supports 0 and
1000 mm with one uniform load of 1000 N/m over [200, 800] mm, the code's
`maxBendingMoment` is 90 N·m while the claimed formula
`M(x) = R1*(x-left) - Σ(contributions of loads left of x)` evaluated at the
span ends yields 60 N·m: the code subtracts the HALVED full-load term
`w*len*(x-left±len/2)/2` instead of the moment of the overlapped load part. -/
theorem spec_C1_counterexample :
    maxBendingMomentRaw cexC1cfg = finite 90 ∧
    claimedMaxMomentOf cexC1cfg = finite 60 ∧
    maxBendingMomentRaw cexC1cfg ≠ claimedMaxMomentOf cexC1cfg := by
  have h1 : maxBendingMomentRaw cexC1cfg = finite 90 := by
    norm_num [maxBendingMomentRaw, reactionsOf, simpleReactions,
      simpleReactionsStep, simpleMaxMoment, simpleMaxMomentStep,
      cexC1cfg, cfg0, jdiv, max_def]
  have h2 : claimedMaxMomentOf cexC1cfg = finite 60 := by
    norm_num [claimedMaxMomentOf, claimedSimpleMaxMoment, claimedMomentAt,
      claimedContribAt, claimedEvalPoints, reactionsOf, simpleReactions,
      simpleReactionsStep, cexC1cfg, cfg0, jdiv, max_def, min_def]
  refine ⟨h1, h2, ?_⟩
  rw [h1, h2]
  simp

/-- C1 amended: for a Simple beam, the solver's `maxBendingMoment` is the
maximum of 0 and the per-load edge moments, where a point load at `x`
contributes `R1*(x-left)` with NO load term subtracted, and a uniform load
contributes, at each end `x` of its span, `R1*(x-left) - w*len*(x-left±len/2)/2`
(`+len/2` at the start, `-len/2` at the end); contributions of other loads are
never subtracted from a load's candidate moment. -/
theorem spec_C1 (cfg : Config) (hbt : cfg.beamType = BeamType.simpleBeam) :
    maxBendingMomentRaw cfg =
      amendedSimpleMaxMoment (cfg.leftSupport / 1000) (reactionsOf cfg).1
        cfg.loads := by
  simp only [maxBendingMomentRaw, hbt]
  exact simpleMaxMoment_eq_amended _ _ _

/-- Witness for the amended C1 at the uniform-load test vector: both sides
evaluate to 90 N·m. -/
theorem spec_C1_witness :
    maxBendingMomentRaw cexC1cfg =
      amendedSimpleMaxMoment (cexC1cfg.leftSupport / 1000) (reactionsOf cexC1cfg).1
        cexC1cfg.loads ∧
    amendedSimpleMaxMoment (cexC1cfg.leftSupport / 1000) (reactionsOf cexC1cfg).1
        cexC1cfg.loads = finite 90 := by
  refine ⟨spec_C1 cexC1cfg rfl, ?_⟩
  norm_num [amendedSimpleMaxMoment, loadEdgeMoments, reactionsOf,
    simpleReactions, simpleReactionsStep, cexC1cfg, cfg0, jdiv, max_def]

/-- C5: for every configuration the sampler emits exactly 100 samples per
curve; the i-th sample position is `i * beamLength/99` rounded to 2 decimals,
so the samples are evenly spaced over [0, beamLength], the first position is 0
and the last is `beamLength` within rounding, regardless of beam length. -/
theorem spec_C5 (cfg : Config) :
    (calculateDiagrams cfg).1.length = 100 ∧
    (calculateDiagrams cfg).2.length = 100 ∧
    (∀ i : ℕ, i < 100 →
      ((calculateDiagrams cfg).1.getD i (0, nan)).1 =
        rnd 2 ((i : ℚ) * (cfg.beamLength / 99)) ∧
      ((calculateDiagrams cfg).2.getD i (0, nan)).1 =
        rnd 2 ((i : ℚ) * (cfg.beamLength / 99))) ∧
    ((calculateDiagrams cfg).1.getD 0 (0, nan)).1 = 0 ∧
    ((calculateDiagrams cfg).2.getD 0 (0, nan)).1 = 0 ∧
    ((calculateDiagrams cfg).1.getD 99 (0, nan)).1 = rnd 2 cfg.beamLength ∧
    ((calculateDiagrams cfg).2.getD 99 (0, nan)).1 = rnd 2 cfg.beamLength := by
  have hget : ∀ i : ℕ, i < 100 →
      ((calculateDiagrams cfg).1.getD i (0, nan)).1 =
        rnd 2 ((i : ℚ) * (cfg.beamLength / 99)) ∧
      ((calculateDiagrams cfg).2.getD i (0, nan)).1 =
        rnd 2 ((i : ℚ) * (cfg.beamLength / 99)) := by
    intro i hi
    unfold calculateDiagrams
    constructor <;>
      · rw [List.getD_eq_getElem?_getD, List.getElem?_map, List.getElem?_map,
          List.getElem?_range hi]
        norm_num
  have h99 : ((99 : ℕ) : ℚ) * (cfg.beamLength / 99) = cfg.beamLength := by
    push_cast
    field_simp
  have hlen1 : (calculateDiagrams cfg).1.length = 100 := by
    unfold calculateDiagrams
    rw [List.length_map, List.length_map, List.length_range]
  have hlen2 : (calculateDiagrams cfg).2.length = 100 := by
    unfold calculateDiagrams
    rw [List.length_map, List.length_map, List.length_range]
  refine ⟨hlen1, hlen2, hget, ?_, ?_, ?_, ?_⟩
  · rw [(hget 0 (by norm_num)).1]; norm_num
  · rw [(hget 0 (by norm_num)).2]; norm_num
  · rw [(hget 99 (by norm_num)).1, h99]
  · rw [(hget 99 (by norm_num)).2, h99]

/-- Witness for C5 at the default configuration (1000 mm beam): the 100th
sample of the shear curve sits at `x = 99 * (1000/99)` rounded, which is
exactly 1000 = beamLength. -/
theorem spec_C5_witness :
    (calculateDiagrams cfg0).1.length = 100 ∧
    ((calculateDiagrams cfg0).1.getD 99 (0, nan)).1 =
      rnd 2 ((99 : ℚ) * (cfg0.beamLength / 99)) ∧
    ((calculateDiagrams cfg0).1.getD 99 (0, nan)).1 = 1000 := by
  have h := ((spec_C5 cfg0).2.2.1 99 (by norm_num)).1
  refine ⟨(spec_C5 cfg0).1, by exact_mod_cast h, ?_⟩
  rw [h]
  norm_num [rnd, cfg0]

/-- One fold step of the cantilever sampler ignores the accumulated pair, so
appending a final load discards everything before it. -/
theorem cantileverShearMomentAt_append (L x : ℚ) (ls : List Load) (l : Load) :
    cantileverShearMomentAt L (ls ++ [l]) x = cantileverShearMomentAt L [l] x := by
  unfold cantileverShearMomentAt
  rw [List.foldl_append]
  simp only [List.foldl_cons, List.foldl_nil]

/-- C6: for a cantilever beam the sampler assigns (instead of accumulating)
each load's shear and moment at every sample position, so with several loads
the emitted curves equal those computed for the LAST load of the list alone. -/
theorem spec_C6 (cfg : Config) (ls : List Load) (l : Load)
    (hbt : cfg.beamType = BeamType.cantileverBeam)
    (hloads : cfg.loads = ls ++ [l]) :
    calculateDiagrams cfg = calculateDiagrams { cfg with loads := [l] } := by
  simp only [calculateDiagrams, hbt, hloads, cantileverShearMomentAt_append]

/-- Witness for C6: a cantilever carrying a point load followed by a uniform
load produces exactly the curves of the uniform load alone. -/
theorem spec_C6_witness :
    calculateDiagrams cfgC6 =
      calculateDiagrams { cfgC6 with loads := [⟨LoadType.uniformLoad, 10, 100, 900⟩] } :=
  spec_C6 cfgC6 [⟨LoadType.pointLoad, 500, 300, 0⟩]
    ⟨LoadType.uniformLoad, 10, 100, 900⟩ rfl rfl

/-- Absolute value of a nonzero finite rational divided by zero is Infinity. -/
theorem jabs_jdiv_zero {n : ℚ} (hn : n ≠ 0) :
    jabs (jdiv (finite n) (finite 0)) = inf := by
  rcases hn.lt_or_lt with h | h
  · rw [jdiv_finite_zero_neg h]; rfl
  · rw [jdiv_finite_zero_pos h]; rfl

/-- C8: the kernel embedding is a total function (it is defined without any
exceptional exit), and degenerate geometry degrades to the IEEE special
values, which are propagated unchanged into the returned result record:
coincident supports of a simple beam with a point load elsewhere make
`maxShearForce` Infinity, and a zero-height rectangular section makes the
section modulus, the normal stress and the safety factor NaN. -/
theorem spec_C8 :
    (∀ (cfg : Config) (P p e : ℚ), cfg.beamType = BeamType.simpleBeam →
        cfg.leftSupport = cfg.rightSupport →
        cfg.loads = [⟨LoadType.pointLoad, P, p, e⟩] →
        P ≠ 0 → p ≠ cfg.rightSupport →
        (calculateResults cfg).maxShearForce = inf) ∧
    (∀ cfg : Config, cfg.beamCrossSection = CrossSection.rectangular →
        cfg.height = 0 →
        (calculateResults cfg).sectionModulus = nan ∧
        (calculateResults cfg).maxNormalStress = nan ∧
        (calculateResults cfg).safetyFactor = nan) := by
  constructor
  · intro cfg P p e hbt hl hloads hP hp
    have hrp : cfg.rightSupport / 1000 ≠ p / 1000 := by
      intro h0
      apply hp
      field_simp at h0
      linarith
    have hn1 : P * (cfg.rightSupport / 1000 - p / 1000) ≠ 0 :=
      mul_ne_zero hP (sub_ne_zero.mpr hrp)
    have hn2 : P * (p / 1000 - cfg.rightSupport / 1000) ≠ 0 :=
      mul_ne_zero hP (sub_ne_zero.mpr (Ne.symm hrp))
    simp only [calculateResults, maxShearForceRaw, reactionsOf, hbt, hloads,
      simpleReactions, List.foldl_cons, List.foldl_nil, simpleReactionsStep,
      hl, sub_self, jadd_zero_left]
    rw [jabs_jdiv_zero hn1, jabs_jdiv_zero hn2]
    rfl
  · intro cfg hcs hh
    have hZ : (sectionProperties cfg).2.2 = nan := by
      simp only [sectionProperties, hcs, hh]
      norm_num [jdiv]
    have hs : maxNormalStressRaw cfg = nan := by
      rw [maxNormalStressRaw, hZ]
      simp
    refine ⟨?_, ?_, ?_⟩
    · simp only [calculateResults, hZ]; rfl
    · simp only [calculateResults, hs]; rfl
    · simp only [calculateResults, hs]; simp

/-- Witness for C8 at concrete degenerate inputs: both supports at 0 with the
default 1000 N load at 500 mm gives `maxShearForce = Infinity`; a zero-height
rectangle gives `maxNormalStress = NaN`. -/
theorem spec_C8_witness :
    (calculateResults cfgC8a).maxShearForce = inf ∧
    (calculateResults cfgC8b).maxNormalStress = nan :=
  ⟨spec_C8.1 cfgC8a 1000 500 0 rfl rfl rfl (by norm_num)
      (by norm_num [cfgC8a, cfg0]),
   (spec_C8.2 cfgC8b rfl rfl).2.1⟩

/-- Simple-beam reactions stay finite when the support span is nonzero. -/
theorem simpleReactions_foldl_finite (lM rM : ℚ) (hne : rM - lM ≠ 0)
    (loads : List Load) :
    ∀ a b : ℚ, ∃ a2 b2 : ℚ,
      loads.foldl (simpleReactionsStep lM rM) (finite a, finite b) =
        (finite a2, finite b2) := by
  induction loads with
  | nil => intro a b; exact ⟨a, b, rfl⟩
  | cons l ls ih =>
      intro a b
      rw [List.foldl_cons]
      cases hlt : l.type <;>
        · simp only [simpleReactionsStep, hlt, jdiv_finite _ hne, jadd_finite]
          exact ih _ _

/-- The simple-beam moment fold keeps a finite, nonnegative accumulator when
`R1` is finite. -/
theorem simpleMaxMoment_foldl_nonneg (lM r1 : ℚ) (loads : List Load) :
    ∀ a : ℚ, 0 ≤ a → ∃ q : ℚ, 0 ≤ q ∧
      loads.foldl (simpleMaxMomentStep lM (finite r1)) (finite a) = finite q := by
  induction loads with
  | nil => intro a ha; exact ⟨a, ha, rfl⟩
  | cons l ls ih =>
      intro a ha
      rw [List.foldl_cons]
      cases hlt : l.type
      case pointLoad =>
        simp only [simpleMaxMomentStep, hlt, jmul_finite, jmax_finite]
        exact ih _ (le_trans ha (le_max_left _ _))
      case uniformLoad =>
        simp only [simpleMaxMomentStep, hlt, jmul_finite, jsub_finite, jmax_finite]
        exact ih _ (le_trans (le_trans ha (le_max_left _ _)) (le_max_left _ _))

/-- The cantilever moment fold keeps a finite, nonnegative accumulator. -/
theorem cantileverMaxMoment_foldl_nonneg (beamLengthM : ℚ) (loads : List Load) :
    ∀ a : ℚ, 0 ≤ a → ∃ q : ℚ, 0 ≤ q ∧
      loads.foldl (cantileverMaxMomentStep beamLengthM) (finite a) = finite q := by
  induction loads with
  | nil => intro a ha; exact ⟨a, ha, rfl⟩
  | cons l ls ih =>
      intro a ha
      rw [List.foldl_cons]
      cases hlt : l.type <;>
        · simp only [cantileverMaxMomentStep, hlt, jmax_finite]
          exact ih _ (le_trans ha (le_max_left _ _))

/-- C10: for every beam type and load list (negative magnitudes included), on
non-degenerate geometry (`leftSupport ≠ rightSupport` when the beam is
simple), the reported `maxBendingMoment` is a finite nonnegative number: the
accumulator starts at 0 and is only replaced through `Math.max`. -/
theorem spec_C10 (cfg : Config)
    (h : cfg.beamType = BeamType.simpleBeam →
      cfg.leftSupport ≠ cfg.rightSupport) :
    ∃ q : ℚ, 0 ≤ q ∧ (calculateResults cfg).maxBendingMoment = finite q := by
  cases hbt : cfg.beamType
  case simpleBeam =>
    have hlr := h hbt
    have hne : cfg.rightSupport / 1000 - cfg.leftSupport / 1000 ≠ 0 := by
      intro h0
      apply hlr
      have h1 := sub_eq_zero.mp h0
      field_simp at h1
      linarith
    obtain ⟨r1, r2, hr⟩ :=
      simpleReactions_foldl_finite _ _ hne cfg.loads 0 0
    have hR1 : (reactionsOf cfg).1 = finite r1 := by
      simp only [reactionsOf, hbt, simpleReactions]
      rw [hr]
    obtain ⟨q, hq0, hq⟩ :=
      simpleMaxMoment_foldl_nonneg (cfg.leftSupport / 1000) r1 cfg.loads 0 le_rfl
    refine ⟨rnd 2 q, rnd_nonneg 2 hq0, ?_⟩
    simp only [calculateResults, maxBendingMomentRaw, hbt, hR1,
      simpleMaxMoment]
    rw [hq]
    rfl
  case cantileverBeam =>
    obtain ⟨q, hq0, hq⟩ :=
      cantileverMaxMoment_foldl_nonneg (cfg.beamLength / 1000) cfg.loads 0 le_rfl
    refine ⟨rnd 2 q, rnd_nonneg 2 hq0, ?_⟩
    simp only [calculateResults, maxBendingMomentRaw, hbt, cantileverMaxMoment]
    rw [hq]
    rfl

/-- Witness for C10 at an all-negative loading (-1000 N point load): the
result is finite and nonnegative, and in fact exactly 0. -/
theorem spec_C10_witness :
    (∃ q : ℚ, 0 ≤ q ∧ (calculateResults cfgC10).maxBendingMoment = finite q) ∧
    (calculateResults cfgC10).maxBendingMoment = finite 0 := by
  refine ⟨spec_C10 cfgC10 (fun _ => by norm_num [cfgC10, cfg0]), ?_⟩
  norm_num [calculateResults, maxBendingMomentRaw, reactionsOf, simpleReactions,
    simpleReactionsStep, simpleMaxMoment, simpleMaxMomentStep, cfgC10, cfg0,
    jdiv, max_def]

end BeamCalc
